import Mathlib

/-!
Shallow embedding of the extraction core of the `cde-gui` repository
(`src/utils/data_transformer.py`, `src/utils/file_navigator.py`,
`src/core/text_extractor.py`, `src/core/extraction_engine.py`) together
with theorems settling the frozen claims about it.

Python strings are modelled as Lean `String`; the Python string
primitives the code uses (`strip`, `upper`, `lower`, `split`,
`'sep'.join`, `split('_', 1)`) are given executable definitions over the
underlying character list, faithful to Python's behaviour on the ASCII
data the code handles.  Python `None` is `Option.none`.  Machine floats
do not occur: `float()` applied to a decimal numeral is modelled exactly
by a rational number (the claims concern decimal numerals only;
`float()` additionally accepts exponent/inf/nan forms that are outside
every claim's scope).
-/

namespace CDE

/-! ## Python string primitives -/

/-- Python `str.strip()`: drop leading and trailing whitespace. -/
def py_strip (s : String) : String :=
  ⟨((s.data.dropWhile Char.isWhitespace).reverse.dropWhile
      Char.isWhitespace).reverse⟩

/-- Python `str.upper()` (ASCII range, which covers the vocabulary the
code compares against). -/
def py_upper (s : String) : String :=
  ⟨s.data.map Char.toUpper⟩

/-- Python `str.lower()` (ASCII range, used on file extensions). -/
def py_lower (s : String) : String :=
  ⟨s.data.map Char.toLower⟩

/-- Helper for `py_split_ws`: accumulate the current token (reversed)
and cut at whitespace. -/
def wsChunks : List Char → List Char → List (List Char)
  | [], acc => if acc = [] then [] else [acc.reverse]
  | c :: rest, acc =>
    if c.isWhitespace then
      if acc = [] then wsChunks rest [] else acc.reverse :: wsChunks rest []
    else wsChunks rest (c :: acc)

/-- Python `str.split()` with no argument: split on whitespace runs,
dropping empty pieces. -/
def py_split_ws (s : String) : List String :=
  (wsChunks s.data []).map (fun l => ⟨l⟩)

/-- Python `'sep'.join(xs)`. -/
def py_join (sep : String) : List String → String
  | [] => ""
  | [x] => x
  | x :: xs => x ++ sep ++ py_join sep xs

/-- Python `' '.join(s.split())`: collapse internal whitespace runs to single
spaces and trim. -/
def collapse_ws (s : String) : String :=
  py_join " " (py_split_ws s)

/-- Python `s.split('_', 1)` when `'_' in s`: the part before the first
underscore and the rest; `none` when there is no underscore. -/
def split_underscore : List Char → Option (List Char × List Char)
  | [] => none
  | c :: rest =>
    if c = '_' then some ([], rest)
    else (split_underscore rest).map (fun p => (c :: p.1, p.2))

/-! ## data_transformer.py -/

/-- Value of the digit string read in base 10 (Python `int`/`float`
digit-sequence semantics). -/
def digitsToNat (ds : List Char) : Nat :=
  ds.foldl (fun n c => 10 * n + (c.toNat - 48)) 0

/-- Lexical part of `float(s)` restricted to decimal numerals: optional
sign, integer digits, optional point and fraction digits, at least one
digit overall.  Returns `(positive?, integer value, fraction value,
fraction digit count)`.  (`float()` also accepts exponent, `inf` and
`nan` spellings, which no claim concerns.) -/
def parseDecimalParts (s : String) : Option (Bool × ℕ × ℕ × ℕ) :=
  let cs := s.data
  let signed : Bool × List Char :=
    match cs with
    | '-' :: r => (false, r)
    | '+' :: r => (true, r)
    | r => (true, r)
  let sgn := signed.1
  let rest := signed.2
  let intPart := rest.takeWhile Char.isDigit
  let rest2 := rest.dropWhile Char.isDigit
  match rest2 with
  | [] =>
    if intPart = [] then none
    else some (sgn, digitsToNat intPart, 0, 0)
  | '.' :: fracCs =>
    if fracCs.all Char.isDigit ∧ ¬(intPart = [] ∧ fracCs = []) then
      some (sgn, digitsToNat intPart, digitsToNat fracCs, fracCs.length)
    else none
  | _ => none

/-- The exact rational value denoted by parsed decimal parts. -/
def ratOfParts (p : Bool × ℕ × ℕ × ℕ) : ℚ :=
  (if p.1 then 1 else -1) * ((p.2.1 : ℚ) + (p.2.2.1 : ℚ) / 10 ^ p.2.2.2)

/-- Python `float(s)` on a decimal numeral: the exact rational value, or
`none` when `s` is not numeric (`ValueError`). -/
def parseDecimal (s : String) : Option ℚ :=
  (parseDecimalParts s).map ratOfParts

/-- Python `int(x)` on a float/rational: truncation toward zero. -/
def pyTrunc (q : ℚ) : ℤ :=
  if 0 ≤ q then ⌊q⌋ else ⌈q⌉

/-- Embeds `DataTransformer.round_age` (data_transformer.py 34-55):
`age_float = float(age_str.strip())`; `decimal_part = age_float -
int(age_float)`; ceiling when `decimal_part > 0.50`, else `int(age_float)`;
`ValueError`/`TypeError` (non-numeric input) gives `None`. -/
def round_age (age_str : String) : Option ℤ :=
  match parseDecimal (py_strip age_str) with
  | none => none
  | some q =>
    let decimal_part := q - (pyTrunc q : ℚ)
    if decimal_part > 1 / 2 then some ⌈q⌉ else some (pyTrunc q)

/-- The female vocabulary of `map_turkish_gender` (data_transformer.py 70). -/
def female_terms : List String := ["BAYAN", "K", "KADIN", "F", "FEMALE"]

/-- The male vocabulary of `map_turkish_gender` (data_transformer.py 71). -/
def male_terms : List String := ["BAY", "E", "ERKEK", "M", "MALE"]

/-- Embeds `DataTransformer.map_turkish_gender` (data_transformer.py 57-78):
`gender_clean = gender_str.strip().upper()`; membership in the two fixed
vocabularies maps to "Female"/"Male"; otherwise `gender_str.strip()` is
returned. -/
def map_turkish_gender (gender_str : String) : String :=
  let gender_clean := py_upper (py_strip gender_str)
  if gender_clean ∈ female_terms then "Female"
  else if gender_clean ∈ male_terms then "Male"
  else py_strip gender_str

/-- A Python value as produced by `transform_value`: a string, an int, or
`None`. -/
inductive PyVal where
  | vStr (s : String)
  | vInt (z : ℤ)
  | vNone
  deriving DecidableEq

/-- Embeds `DataTransformer.transform_value` (data_transformer.py 13-32):
dispatch on the transform name; `"none"` or a falsy (empty) name strips a
string value; any other name returns the value untouched.  The value fed
to it by `DataProcessor` is always the string captured by
`extract_with_pattern`. -/
def transform_value (value : String) (transform_type : String) : PyVal :=
  if transform_type = "age_round" then
    match round_age value with
    | some z => PyVal.vInt z
    | none => PyVal.vNone
  else if transform_type = "gender_turkish" then
    PyVal.vStr (map_turkish_gender value)
  else if transform_type = "none" ∨ transform_type = "" then
    PyVal.vStr (py_strip value)
  else
    PyVal.vStr value

/-- Outcome of `re.search(pattern, text, re.IGNORECASE | re.MULTILINE)`
as observed by `extract_with_pattern`: the pattern fails to compile
(`re.error`), or there is no match, or the first match carries the list
of its capture groups (`match.groups()`, group 1 first; a group that did
not participate in the match is `none`). -/
inductive SearchOutcome where
  | compileError
  | noMatch
  | matched (groups : List (Option String))
  deriving DecidableEq

/-- Embeds `DataTransformer.extract_with_pattern` (data_transformer.py 80-98)
as a function of the search outcome.  `re.error` is caught and gives
`None`; a falsy match or empty `match.groups()` gives `None`; otherwise
`match.group(1).strip()` is returned — when group 1 did not participate
(`None`), `.strip()` on `None` raises an `AttributeError` that the
function does not catch, modelled by `Except.error`. -/
def extract_with_pattern (o : SearchOutcome) : Except String (Option String) :=
  match o with
  | SearchOutcome.compileError => Except.ok none
  | SearchOutcome.noMatch => Except.ok none
  | SearchOutcome.matched [] => Except.ok none
  | SearchOutcome.matched (some g :: _) => Except.ok (some (py_strip g))
  | SearchOutcome.matched (none :: _) =>
      Except.error "AttributeError: NoneType object has no attribute strip"

/-! ## file_navigator.py

The file system is modelled by the data the navigator reads from it: a
directory listing is a list of `(entryName, isDirectory)` pairs in
`os.listdir` order, `none` when the directory does not exist. -/

/-- Embeds `FileSystemNavigator.load_subject_list` (file_navigator.py 102-123):
read the file line by line, strip each line, skip empty lines;
`FileNotFoundError` is swallowed and gives the empty list.  `fileLines`
is the file's line list, `none` when the file cannot be opened. -/
def load_subject_list (fileLines : Option (List String)) : List String :=
  match fileLines with
  | none => []
  | some lines => (lines.map py_strip).filter (fun sid => sid ≠ "")

/-- Embeds `FileSystemNavigator.parse_folder_name` (file_navigator.py 49-70):
split on the first `_` into id and name, strip the id, collapse
whitespace runs in the name; with no underscore the whole stripped name
is the id and the display name is empty. -/
def parse_folder_name (folder_name : String) : String × String :=
  match split_underscore folder_name.data with
  | some p => (py_strip ⟨p.1⟩, collapse_ws ⟨p.2⟩)
  | none => (py_strip folder_name, "")

/-- Embeds `FileSystemNavigator.get_subject_folders` (file_navigator.py 23-47):
walk the root listing in order; keep each directory entry whose parsed
subject id is truthy (non-empty) and a member of the subject list,
producing `(subject_id, patient_name, folder_path)`.  `os.path.join` is
modelled as `root ++ "/" ++ name`. -/
def get_subject_folders (root : String) (entries : Option (List (String × Bool)))
    (subject_list : List String) : List (String × String × String) :=
  match entries with
  | none => []
  | some es =>
    es.filterMap (fun e =>
      if e.2 then
        let parsed := parse_folder_name e.1
        if parsed.1 ≠ "" ∧ parsed.1 ∈ subject_list then
          some (parsed.1, parsed.2, root ++ "/" ++ e.1)
        else none
      else none)

/-- Embeds `Path(file_path).suffix` for `FileSystemNavigator.get_file_type`:
`Path(file_path).suffix.lower()` classified as image, pdf or unknown.
`pathlib`'s suffix: the part of the final path component from its last
dot, empty when that dot is absent, leading or trailing. -/
def path_suffix (p : String) : String :=
  let name := ((p.data.reverse.takeWhile (fun c => c ≠ '/')).reverse)
  let i := name.length - 1 - (name.reverse.takeWhile (fun c => c ≠ '.')).length
  if (('.' ∈ name) ∧ 0 < i ∧ i < name.length - 1 : Prop) then ⟨name.drop i⟩ else ""

/-- The image extensions recognised by `get_file_type`. -/
def image_formats : List String := [".jpg", ".jpeg", ".png", ".tiff", ".bmp", ".gif"]

/-- Embeds `FileSystemNavigator.get_file_type` (file_navigator.py 125-145). -/
def get_file_type (file_path : String) : String :=
  let ext := py_lower (path_suffix file_path)
  if ext ∈ image_formats then "image"
  else if ext ∈ [".pdf"] then "pdf"
  else "unknown"

/-! ## text_extractor.py / extraction_engine.py — text extraction

A PDF document is modelled by its list of per-page extracted texts in
document order (`page.get_text()` for each page). -/

/-- The page loop shared by `TextExtractor._extract_from_pdf`
(text_extractor.py 184-214) and
`ExtractionEngine._extract_pdf_fallback` (extraction_engine.py 269-301):
keep the pages whose text is non-blank, join them with `'\n'`, return
the stripped join, or `None` when the join is empty. -/
def extract_from_pdf (pages : List String) : Option String :=
  let text_content := pages.filter (fun t => py_strip t ≠ "")
  let full_text := py_join "\n" text_content
  if full_text ≠ "" then some (py_strip full_text) else none

/-- Embeds `ExtractionEngine._extract_pdf_fallback`: the outer `try` also
covers opening the document; a raised exception gives `None`.  `doc` is
the page list, `none` when the document cannot be opened. -/
def extract_pdf_fallback (doc : Option (List String)) : Option String :=
  match doc with
  | none => none
  | some pages => extract_from_pdf pages

/-! ## extraction_engine.py — per-subject pipeline -/

/-- One subject's result dictionary as built by
`ExtractionEngine._process_single_subject` (extraction_engine.py 203-267). -/
structure SubjectResult where
  subject_id : String
  patient_name : String
  file_path : String
  extracted_text : Option String
  extraction_status : String
  error : Option String
  deriving DecidableEq

/-- Everything one subject's pipeline reads from the outside world:
the outcome of `navigator.find_target_files` (`Except.error` when the
listing raises, e.g. `PermissionError`), the OCR text for a path
(`text_extractor.extract_text(path, 'image')`), the extractor's PDF text
for a path (`text_extractor.extract_text(path, 'pdf')`), and the page
list of the PDF at a path (`none` when it cannot be opened). -/
structure SubjectEnv where
  find_result : Except String (List String)
  ocr_text : String → Option String
  extractor_pdf_text : String → Option String
  pdf_doc : String → Option (List String)

/-- The `extracted_text` computed at extraction_engine.py 245-256 for a
supported target file: OCR when the file is an image (the extractor is
present exactly when Tesseract is available), the extractor's PDF path
or the fallback for a pdf, `None` otherwise. -/
def selected_text (ta : Bool) (env : SubjectEnv) (f : String) : Option String :=
  if get_file_type f = "image" ∧ ta = true then env.ocr_text f
  else if get_file_type f = "pdf" then
    (if ta then env.extractor_pdf_text f else extract_pdf_fallback (env.pdf_doc f))
  else none

/-- Embeds `ExtractionEngine._process_single_subject`
(extraction_engine.py 203-267).  `ta` is `self.tesseract_available`; `self.text_extractor` is
present exactly when `ta` holds (extraction_engine.py 32-39).  The
function's own `try`/`except` turns any raised exception into the error
field, so it is total. -/
def process_single_subject (ta : Bool) (env : SubjectEnv)
    (subject_id patient_name target_filename : String) : SubjectResult :=
  let base : SubjectResult :=
    ⟨subject_id, patient_name, "", none, "Failed", none⟩
  match env.find_result with
  | Except.error e => { base with error := some e }
  | Except.ok [] =>
      { base with
          error := some ("Target file \x27" ++ target_filename ++ "\x27 not found") }
  | Except.ok (f :: _) =>
    let r1 := { base with file_path := f }
    if get_file_type f = "unknown" then
      { r1 with error := some ("Unsupported file type: " ++ f) }
    else if get_file_type f = "image" ∧ ta = false then
      { r1 with error := some "Tesseract OCR not available for image text extraction" }
    else
      match selected_text ta env f with
      | some t =>
          if t ≠ "" then
            { r1 with extracted_text := some t, extraction_status := "Success" }
          else
            { r1 with error := some "Failed to extract text from file" }
      | none => { r1 with error := some "Failed to extract text from file" }

/-- Embeds `ExtractionEngine._process_subjects` (extraction_engine.py 148-201):
one task per discovered subject, one result appended per completed task.
`envOf i` is what subject `i`'s pipeline reads from the world.  The
thread pool collects results in completion order — a permutation of
submission order that no claim depends on; the embedding uses submission
order.  (`future.result()` can only re-raise an exception escaping
`_process_single_subject`, which catches everything it runs, so the
`except` arm of the collection loop is not reachable in this model.) -/
def process_subjects (ta : Bool) (target_filename : String)
    (envOf : Nat → SubjectEnv) :
    List (String × String × String) → Nat → List SubjectResult
  | [], _ => []
  | s :: rest, i =>
      process_single_subject ta (envOf i) s.1 s.2.1 target_filename
        :: process_subjects ta target_filename envOf rest (i + 1)

/-! ## extraction_engine.py — run coordination -/

/-- Python truthiness of a dictionary value as tested by
`extract_data`'s success tally: `value and str(value).strip()`. -/
def truthy_stripped : Option String → Bool
  | none => false
  | some s => s ≠ "" ∧ py_strip s ≠ ""

/-- The per-record test of extraction_engine.py 125-128: some dictionary
item whose key is not in `['subject_id', 'name']` has a truthy,
non-blank value.  The keys of a result dictionary are `subject_id`,
`patient_name`, `file_path`, `extracted_text`, `extraction_status`,
`error`, in insertion order. -/
def has_extracted_data (r : SubjectResult) : Bool :=
  [("subject_id", some r.subject_id), ("patient_name", some r.patient_name),
   ("file_path", some r.file_path), ("extracted_text", r.extracted_text),
   ("extraction_status", some r.extraction_status), ("error", r.error)].any
    (fun kv => kv.1 ∉ ["subject_id", "name"] ∧ truthy_stripped kv.2)

/-- The success tally of extraction_engine.py 121-132. -/
def successful_extractions (data : List SubjectResult) : Nat :=
  (data.filter has_extracted_data).length

/-- The result dictionary of `ExtractionEngine.extract_data`
(extraction_engine.py 60-68).  `missing_subjects` and `warnings` are
only inserted when subjects are missing; absent keys are modelled by the
empty list. -/
structure RunResults where
  success : Bool
  data : List SubjectResult
  total_subjects : Nat
  processed_subjects : Nat
  succ_count : Nat
  fail_count : Nat
  errors : List String
  missing_subjects : List String
  warnings : List String
  deriving DecidableEq

/-- Everything one run reads from the outside world. -/
structure RunInput where
  fileLines : Option (List String)
  root : String
  rootEntries : Option (List (String × Bool))
  target_filename : String
  envOf : Nat → SubjectEnv
  ta : Bool

/-- The ids of the found subject folders, as used for the membership
test of extraction_engine.py 91 (`{folder[0] for folder in
subject_folders}`). -/
def found_subject_ids (folders : List (String × String × String)) : List String :=
  folders.map (fun folder => folder.1)

/-- The missing-subject list of extraction_engine.py 92: the raw
requested list filtered to the ids without a found folder. -/
def missing_of (subject_list : List String)
    (folders : List (String × String × String)) : List String :=
  subject_list.filter (fun sid => sid ∉ found_subject_ids folders)

/-- Embeds `ExtractionEngine.extract_data` (extraction_engine.py 41-146).
Progress callbacks are pure notifications and are not modelled.  The
surrounding `try`/`except` cannot fire in this model because every
modelled step is total; its presence does not change any field set on
the paths below. -/
def extract_data (inp : RunInput) : RunResults :=
  let base : RunResults := ⟨false, [], 0, 0, 0, 0, [], [], []⟩
  let subject_list := load_subject_list inp.fileLines
  if subject_list = [] then
    { base with errors := ["No subjects found in subject list file"] }
  else
    let subject_folders := get_subject_folders inp.root inp.rootEntries subject_list
    let missing_subjects := missing_of subject_list subject_folders
    let warnings :=
      if missing_subjects ≠ [] then
        ["Missing " ++ toString missing_subjects.length ++ " subject folders: "
          ++ py_join ", " missing_subjects]
      else []
    if subject_folders = [] then
      { base with
        total_subjects := 0,
        errors :=
          [if missing_subjects ≠ [] then
            "No subject folders found. Missing: " ++ py_join ", " missing_subjects
          else "No subject folders found matching the subject list"],
        missing_subjects := missing_subjects, warnings := warnings }
    else
      let extraction_data :=
        process_subjects inp.ta inp.target_filename inp.envOf subject_folders 0
      let succ := successful_extractions extraction_data
      { success := true,
        data := extraction_data,
        total_subjects := subject_folders.length,
        processed_subjects := extraction_data.length,
        succ_count := succ,
        fail_count := extraction_data.length - succ,
        errors := [],
        missing_subjects := missing_subjects,
        warnings := warnings }

/-- Rendered from the spec’s words for the C8 comparison (§4.3,
PDF-native variant): concatenate the per-page text of all pages with
newline separators, in document order; absent if the concatenation is
empty after trimming. -/
def extract_from_pdf_spec (pages : List String) : Option String :=
  let full := py_strip (py_join "\n" pages)
  if full ≠ "" then some full else none

/-- The failure modes of one subject’s pipeline named by claim C2: the
file-listing step raises (the exception message is what `str(e)` yields,
non-empty for the OS errors in question), the target file is not found,
the first found file has an unsupported type, the file is an image while
OCR is unavailable, or extraction returns nothing (`None` or empty
text). -/
def pipeline_fails (ta : Bool) (env : SubjectEnv) : Prop :=
  (∃ e, env.find_result = Except.error e ∧ e ≠ "") ∨
  env.find_result = Except.ok [] ∨
  (∃ f rest, env.find_result = Except.ok (f :: rest) ∧
    (get_file_type f = "unknown" ∨
     (get_file_type f = "image" ∧ ta = false) ∨
     selected_text ta env f = none ∨ selected_text ta env f = some ""))

/-! ## Helper lemmas -/

lemma append_ne_empty_left (a b : String) (h : a ≠ "") : a ++ b ≠ "" := by
  intro hc
  apply h
  have : (a ++ b).data = [] := congrArg String.data hc
  rw [String.data_append] at this
  rcases List.append_eq_nil.mp this with ⟨h1, _⟩
  cases a
  simp_all

lemma append_ne_empty_right (a b : String) (h : b ≠ "") : a ++ b ≠ "" := by
  intro hc
  apply h
  have : (a ++ b).data = [] := congrArg String.data hc
  rw [String.data_append] at this
  rcases List.append_eq_nil.mp this with ⟨_, h2⟩
  cases b
  simp_all

lemma py_join_eq_empty (l : List String) (h : ∀ x ∈ l, x ≠ "") :
    py_join "\n" l = "" ↔ l = [] := by
  constructor
  · intro hj
    match l with
    | [] => rfl
    | [x] => exact absurd hj (h x (by simp))
    | x :: y :: r =>
      exact absurd hj (append_ne_empty_left _ _
        (append_ne_empty_left _ _ (h x (by simp))))
  · intro hl; subst hl; rfl

lemma process_subjects_length (ta : Bool) (tf : String) (envOf : Nat → SubjectEnv) :
    ∀ (subjects : List (String × String × String)) (i : Nat),
      (process_subjects ta tf envOf subjects i).length = subjects.length := by
  intro subjects
  induction subjects with
  | nil => intro i; rfl
  | cons s rest ih => intro i; simp [process_subjects, ih]

lemma process_subjects_getElem (ta : Bool) (tf : String) (envOf : Nat → SubjectEnv) :
    ∀ (subjects : List (String × String × String)) (i k : Nat),
      (process_subjects ta tf envOf subjects i)[k]? =
        (subjects[k]?).map
          (fun s => process_single_subject ta (envOf (i + k)) s.1 s.2.1 tf) := by
  intro subjects
  induction subjects with
  | nil => intro i k; simp [process_subjects]
  | cons s rest ih =>
    intro i k
    match k with
    | 0 => simp [process_subjects]
    | k + 1 =>
      have := ih (i + 1) k
      simp only [process_subjects, List.getElem?_cons_succ, this]
      have harith : i + 1 + k = i + (k + 1) := by omega
      rw [harith]

lemma get_subject_folders_nil (root : String) (entries : Option (List (String × Bool))) :
    get_subject_folders root entries [] = [] := by
  cases entries with
  | none => rfl
  | some es =>
    simp [get_subject_folders]

lemma pss_find_error (ta : Bool) (env : SubjectEnv) (sid pn tf e : String)
    (he : env.find_result = Except.error e) :
    process_single_subject ta env sid pn tf = ⟨sid, pn, "", none, "Failed", some e⟩ := by
  simp [process_single_subject, he]

lemma pss_not_found (ta : Bool) (env : SubjectEnv) (sid pn tf : String)
    (he : env.find_result = Except.ok []) :
    process_single_subject ta env sid pn tf =
      ⟨sid, pn, "", none, "Failed",
        some ("Target file \x27" ++ tf ++ "\x27 not found")⟩ := by
  simp [process_single_subject, he]

lemma pss_unknown_type (ta : Bool) (env : SubjectEnv) (sid pn tf f : String)
    (rest : List String) (he : env.find_result = Except.ok (f :: rest))
    (h1 : get_file_type f = "unknown") :
    process_single_subject ta env sid pn tf =
      ⟨sid, pn, f, none, "Failed", some ("Unsupported file type: " ++ f)⟩ := by
  simp [process_single_subject, he, h1]

lemma pss_image_no_ocr (env : SubjectEnv) (sid pn tf f : String)
    (rest : List String) (he : env.find_result = Except.ok (f :: rest))
    (h1 : get_file_type f = "image") :
    process_single_subject false env sid pn tf =
      ⟨sid, pn, f, none, "Failed",
        some "Tesseract OCR not available for image text extraction"⟩ := by
  simp [process_single_subject, he, h1]

lemma pss_extract_none (ta : Bool) (env : SubjectEnv) (sid pn tf f : String)
    (rest : List String) (he : env.find_result = Except.ok (f :: rest))
    (h1 : get_file_type f ≠ "unknown")
    (h2 : ¬(get_file_type f = "image" ∧ ta = false))
    (hsel : selected_text ta env f = none) :
    process_single_subject ta env sid pn tf =
      ⟨sid, pn, f, none, "Failed", some "Failed to extract text from file"⟩ := by
  simp [process_single_subject, he, h1, h2, hsel]

lemma pss_extract_empty (ta : Bool) (env : SubjectEnv) (sid pn tf f : String)
    (rest : List String) (he : env.find_result = Except.ok (f :: rest))
    (h1 : get_file_type f ≠ "unknown")
    (h2 : ¬(get_file_type f = "image" ∧ ta = false))
    (hsel : selected_text ta env f = some "") :
    process_single_subject ta env sid pn tf =
      ⟨sid, pn, f, none, "Failed", some "Failed to extract text from file"⟩ := by
  simp [process_single_subject, he, h1, h2, hsel]

lemma pss_extract_ok (ta : Bool) (env : SubjectEnv) (sid pn tf f t : String)
    (rest : List String) (he : env.find_result = Except.ok (f :: rest))
    (h1 : get_file_type f ≠ "unknown")
    (h2 : ¬(get_file_type f = "image" ∧ ta = false))
    (hsel : selected_text ta env f = some t) (ht : t ≠ "") :
    process_single_subject ta env sid pn tf =
      ⟨sid, pn, f, some t, "Success", none⟩ := by
  simp [process_single_subject, he, h1, h2, hsel, ht]

/-! ## Claim theorems -/

/-- Claim C1 (code_bug evidence): a run over one discovered subject
whose target file is absent.  The sole record has status `Failed`, no
extracted text and no rule-field values, so the claim requires
`successful_extractions = 0` and `failed_extractions = 1`; the code
counts the record as successful (its `extraction_status`/`patient_name`
entries are non-empty and its keys are compared against `'name'`, not
`'patient_name'`, and rule fields are not even present in the raw
per-subject dictionaries), giving 1 and 0. -/
theorem c1_success_count_run :
    (extract_data ⟨some ["001"], "r", some [("001_Jane", true)], "report.pdf",
       fun _ => ⟨Except.ok [], fun _ => none, fun _ => none, fun _ => none⟩,
       true⟩).data =
      [⟨"001", "Jane", "", none, "Failed",
        some "Target file \x27report.pdf\x27 not found"⟩] ∧
    (extract_data ⟨some ["001"], "r", some [("001_Jane", true)], "report.pdf",
       fun _ => ⟨Except.ok [], fun _ => none, fun _ => none, fun _ => none⟩,
       true⟩).processed_subjects = 1 ∧
    (extract_data ⟨some ["001"], "r", some [("001_Jane", true)], "report.pdf",
       fun _ => ⟨Except.ok [], fun _ => none, fun _ => none, fun _ => none⟩,
       true⟩).succ_count = 1 ∧
    (extract_data ⟨some ["001"], "r", some [("001_Jane", true)], "report.pdf",
       fun _ => ⟨Except.ok [], fun _ => none, fun _ => none, fun _ => none⟩,
       true⟩).fail_count = 0 := by decide

/-- Claim C2: every discovered subject yields exactly one record; each
of the claim’s per-subject failure modes yields a `Failed` record with a
non-empty error detail; and a subject’s record does not depend on any
other subject’s environment, so one subject’s failure leaves every
sibling record unaffected.  The embedded pipeline is a total function —
no exception crosses the coordinator boundary. -/
theorem c2_per_subject_failure_isolation :
  (∀ ta tf envOf subjects,
    (process_subjects ta tf envOf subjects 0).length = subjects.length) ∧
  (∀ ta env sid pn tf, pipeline_fails ta env →
    (process_single_subject ta env sid pn tf).extraction_status = "Failed" ∧
    ∃ e, (process_single_subject ta env sid pn tf).error = some e ∧ e ≠ "") ∧
  (∀ ta tf envOf envOf2 subjects j,
    (∀ k, k ≠ j → envOf k = envOf2 k) →
    ∀ k, k ≠ j →
      (process_subjects ta tf envOf subjects 0)[k]? =
        (process_subjects ta tf envOf2 subjects 0)[k]?) := by
  refine ⟨?_, ?_, ?_⟩
  · intro ta tf envOf subjects
    exact process_subjects_length ta tf envOf subjects 0
  · intro ta env sid pn tf h
    rcases h with ⟨e, he, hne⟩ | hok | ⟨f, rest, hok, hcase⟩
    · rw [pss_find_error ta env sid pn tf e he]
      exact ⟨rfl, e, rfl, hne⟩
    · rw [pss_not_found ta env sid pn tf hok]
      exact ⟨rfl, _, rfl, append_ne_empty_right _ _ (by decide)⟩
    · by_cases h1 : get_file_type f = "unknown"
      · rw [pss_unknown_type ta env sid pn tf f rest hok h1]
        exact ⟨rfl, _, rfl, append_ne_empty_left _ _ (by decide)⟩
      · by_cases h2 : get_file_type f = "image" ∧ ta = false
        · obtain ⟨him, hta⟩ := h2
          subst hta
          rw [pss_image_no_ocr env sid pn tf f rest hok him]
          exact ⟨rfl, _, rfl, by decide⟩
        · rcases hcase with hc | hc | hc | hc
          · exact absurd hc h1
          · exact absurd hc h2
          · rw [pss_extract_none ta env sid pn tf f rest hok h1 h2 hc]
            exact ⟨rfl, _, rfl, by decide⟩
          · rw [pss_extract_empty ta env sid pn tf f rest hok h1 h2 hc]
            exact ⟨rfl, _, rfl, by decide⟩
  · intro ta tf envOf envOf2 subjects j hagree k hkj
    rw [process_subjects_getElem, process_subjects_getElem]
    simp only [Nat.zero_add]
    rw [hagree k hkj]

/-- Witness for C2 at a concrete input: a missing target file yields a
`Failed` record with a non-empty error. -/
theorem c2_witness :
    (process_single_subject true
      ⟨Except.ok [], fun _ => none, fun _ => none, fun _ => none⟩
      "001" "Jane" "report.pdf").extraction_status = "Failed" ∧
    ∃ e, (process_single_subject true
      ⟨Except.ok [], fun _ => none, fun _ => none, fun _ => none⟩
      "001" "Jane" "report.pdf").error = some e ∧ e ≠ "" :=
  c2_per_subject_failure_isolation.2.1 true
    ⟨Except.ok [], fun _ => none, fun _ => none, fun _ => none⟩
    "001" "Jane" "report.pdf" (Or.inr (Or.inl rfl))

/-- Claim C3: a run discovering zero subject folders (in particular
when the subject list is empty or the subject file is unreadable, which
both make the loaded list empty) is aborted with `success = false`, a
non-empty error list, no data and no per-subject processing; a run that
discovers at least one folder always ends with `success = true` and a
complete result — one record per discovered folder — regardless of the
per-subject outcomes. -/
theorem c3_zero_subject_abort :
  (∀ inp, (load_subject_list inp.fileLines = [] ∨
      get_subject_folders inp.root inp.rootEntries (load_subject_list inp.fileLines) = []) →
    (extract_data inp).success = false ∧ (extract_data inp).errors ≠ [] ∧
    (extract_data inp).data = [] ∧ (extract_data inp).processed_subjects = 0) ∧
  (∀ inp, get_subject_folders inp.root inp.rootEntries (load_subject_list inp.fileLines) ≠ [] →
    (extract_data inp).success = true ∧
    (extract_data inp).processed_subjects =
      (get_subject_folders inp.root inp.rootEntries (load_subject_list inp.fileLines)).length ∧
    (extract_data inp).data =
      process_subjects inp.ta inp.target_filename inp.envOf
        (get_subject_folders inp.root inp.rootEntries (load_subject_list inp.fileLines)) 0) := by
  constructor
  · intro inp h
    by_cases hl : load_subject_list inp.fileLines = []
    · simp [extract_data, hl]
    · have hf := h.resolve_left hl
      simp [extract_data, hl, hf]
  · intro inp h
    have hl : load_subject_list inp.fileLines ≠ [] := by
      intro hl
      exact h (by rw [hl, get_subject_folders_nil])
    simp [extract_data, hl, h, process_subjects_length]

/-- Witness for C3 at concrete inputs: an unreadable subject file
aborts the run; a discovered folder ends it with success even though its
subject fails. -/
theorem c3_witness :
    ((extract_data ⟨none, "r", some [("001_A", true)], "f.pdf",
        fun _ => ⟨Except.ok [], fun _ => none, fun _ => none, fun _ => none⟩,
        true⟩).success = false ∧
     (extract_data ⟨none, "r", some [("001_A", true)], "f.pdf",
        fun _ => ⟨Except.ok [], fun _ => none, fun _ => none, fun _ => none⟩,
        true⟩).errors ≠ [] ∧
     (extract_data ⟨none, "r", some [("001_A", true)], "f.pdf",
        fun _ => ⟨Except.ok [], fun _ => none, fun _ => none, fun _ => none⟩,
        true⟩).data = [] ∧
     (extract_data ⟨none, "r", some [("001_A", true)], "f.pdf",
        fun _ => ⟨Except.ok [], fun _ => none, fun _ => none, fun _ => none⟩,
        true⟩).processed_subjects = 0) ∧
    (extract_data ⟨some ["001"], "r", some [("001_A", true)], "f.pdf",
        fun _ => ⟨Except.ok [], fun _ => none, fun _ => none, fun _ => none⟩,
        true⟩).success = true :=
  ⟨c3_zero_subject_abort.1
      ⟨none, "r", some [("001_A", true)], "f.pdf",
        fun _ => ⟨Except.ok [], fun _ => none, fun _ => none, fun _ => none⟩, true⟩
      (Or.inl rfl),
   (c3_zero_subject_abort.2
      ⟨some ["001"], "r", some [("001_A", true)], "f.pdf",
        fun _ => ⟨Except.ok [], fun _ => none, fun _ => none, fun _ => none⟩, true⟩
      (by decide)).1⟩

/-- Claim C4: with OCR unavailable, an image-type target fails
immediately with a descriptive error and its record does not consult any
extraction oracle (the equality holds for every environment, whatever
its OCR/PDF functions return); a pdf-type target still has extraction
attempted via the fallback path — it succeeds exactly when the fallback
yields non-empty text, so PDF extraction is never blocked by OCR engine
absence. -/
theorem c4_ocr_unavailable :
  (∀ env sid pn tf f rest, env.find_result = Except.ok (f :: rest) →
    get_file_type f = "image" →
    process_single_subject false env sid pn tf =
      ⟨sid, pn, f, none, "Failed",
        some "Tesseract OCR not available for image text extraction"⟩) ∧
  (∀ env sid pn tf f rest, env.find_result = Except.ok (f :: rest) →
    get_file_type f = "pdf" →
    ((∀ t, extract_pdf_fallback (env.pdf_doc f) = some t → t ≠ "" →
       process_single_subject false env sid pn tf =
         ⟨sid, pn, f, some t, "Success", none⟩) ∧
     (extract_pdf_fallback (env.pdf_doc f) = none ∨
        extract_pdf_fallback (env.pdf_doc f) = some "" →
       process_single_subject false env sid pn tf =
         ⟨sid, pn, f, none, "Failed", some "Failed to extract text from file"⟩))) := by
  constructor
  · intro env sid pn tf f rest hfind hft
    exact pss_image_no_ocr env sid pn tf f rest hfind hft
  · intro env sid pn tf f rest hfind hft
    have hsel : selected_text false env f = extract_pdf_fallback (env.pdf_doc f) := by
      simp [selected_text, hft]
    have h1 : get_file_type f ≠ "unknown" := by rw [hft]; decide
    have h2 : ¬(get_file_type f = "image" ∧ false = false) := by rw [hft]; decide
    constructor
    · intro t hfb ht
      exact pss_extract_ok false env sid pn tf f t rest hfind h1 h2 (hsel.trans hfb) ht
    · intro hfb
      rcases hfb with hc | hc
      · exact pss_extract_none false env sid pn tf f rest hfind h1 h2 (hsel.trans hc)
      · exact pss_extract_empty false env sid pn tf f rest hfind h1 h2 (hsel.trans hc)

/-- Witness for C4 at concrete inputs: an image target fails without
extraction when OCR is absent, while a pdf target is extracted through
the fallback. -/
theorem c4_witness :
    process_single_subject false
      ⟨Except.ok ["r/1/scan.jpg"], fun _ => some "ocr text", fun _ => none, fun _ => none⟩
      "001" "Jane" "scan.jpg" =
      ⟨"001", "Jane", "r/1/scan.jpg", none, "Failed",
        some "Tesseract OCR not available for image text extraction"⟩ ∧
    process_single_subject false
      ⟨Except.ok ["r/1/doc.pdf"], fun _ => none, fun _ => none, fun _ => some ["page text"]⟩
      "002" "John" "doc.pdf" =
      ⟨"002", "John", "r/1/doc.pdf", some "page text", "Success", none⟩ :=
  ⟨c4_ocr_unavailable.1
      ⟨Except.ok ["r/1/scan.jpg"], fun _ => some "ocr text", fun _ => none, fun _ => none⟩
      "001" "Jane" "scan.jpg" "r/1/scan.jpg" [] rfl (by decide),
   (c4_ocr_unavailable.2
      ⟨Except.ok ["r/1/doc.pdf"], fun _ => none, fun _ => none, fun _ => some ["page text"]⟩
      "002" "John" "doc.pdf" "r/1/doc.pdf" [] rfl (by decide)).1
      "page text" (by decide) (by decide)⟩

/-- Claim C5: `round_age` returns the ceiling when the code’s decimal
part (the value minus its truncation toward zero) strictly exceeds 1/2
and otherwise the truncation; a non-numeric input gives `none` rather
than an error; and the spec’s four anchor examples hold. -/
theorem c5_round_age :
  (∀ s q, parseDecimal (py_strip s) = some q →
    ((q - (pyTrunc q : ℚ) > 1 / 2 → round_age s = some ⌈q⌉) ∧
     (¬(q - (pyTrunc q : ℚ) > 1 / 2) → round_age s = some (pyTrunc q)))) ∧
  (∀ s, parseDecimal (py_strip s) = none → round_age s = none) ∧
  round_age "25.50" = some 25 ∧ round_age "25.51" = some 26 ∧
  round_age "25.00" = some 25 ∧ round_age "abc" = none := by
  have key : ∀ s q, parseDecimal (py_strip s) = some q →
      ((q - (pyTrunc q : ℚ) > 1 / 2 → round_age s = some ⌈q⌉) ∧
       (¬(q - (pyTrunc q : ℚ) > 1 / 2) → round_age s = some (pyTrunc q))) := by
    intro s q h
    unfold round_age
    rw [h]
    constructor <;> intro hc
    · exact if_pos hc
    · exact if_neg hc
  refine ⟨key, ?_, ?_, ?_, ?_, ?_⟩
  · intro s h
    simp [round_age, h]
  · have hp : parseDecimal (py_strip "25.50") = some ((51 : ℚ) / 2) := by
      have h1 : parseDecimalParts (py_strip "25.50") = some (true, 25, 50, 2) := by decide
      rw [parseDecimal, h1]
      simp [ratOfParts]
      norm_num
    have htr : pyTrunc ((51 : ℚ) / 2) = 25 := by
      rw [pyTrunc, if_pos (by norm_num)]
      norm_num [Int.floor_eq_iff]
    have := (key "25.50" _ hp).2 (by rw [htr]; norm_num)
    rw [this, htr]
  · have hp : parseDecimal (py_strip "25.51") = some ((2551 : ℚ) / 100) := by
      have h1 : parseDecimalParts (py_strip "25.51") = some (true, 25, 51, 2) := by decide
      rw [parseDecimal, h1]
      simp [ratOfParts]
      norm_num
    have htr : pyTrunc ((2551 : ℚ) / 100) = 25 := by
      rw [pyTrunc, if_pos (by norm_num)]
      norm_num [Int.floor_eq_iff]
    have hce : ⌈(2551 : ℚ) / 100⌉ = 26 := by
      norm_num [Int.ceil_eq_iff]
    have := (key "25.51" _ hp).1 (by rw [htr]; norm_num)
    rw [this, hce]
  · have hp : parseDecimal (py_strip "25.00") = some ((25 : ℚ)) := by
      have h1 : parseDecimalParts (py_strip "25.00") = some (true, 25, 0, 2) := by decide
      rw [parseDecimal, h1]
      simp [ratOfParts]
    have htr : pyTrunc ((25 : ℚ)) = 25 := by
      rw [pyTrunc, if_pos (by norm_num)]
      norm_num
    have := (key "25.00" _ hp).2 (by rw [htr]; norm_num)
    rw [this, htr]
  · have h1 : parseDecimalParts (py_strip "abc") = none := by decide
    have hp : parseDecimal (py_strip "abc") = none := by rw [parseDecimal, h1]; rfl
    simp [round_age, hp]

/-- Witness for C5 at a concrete input: "1.6" parses to 8/5, its decimal
part 3/5 exceeds 1/2, and the theorem yields the ceiling. -/
theorem c5_witness : round_age "1.6" = some ⌈(8 : ℚ) / 5⌉ := by
  have hp : parseDecimal (py_strip "1.6") = some ((8 : ℚ) / 5) := by
    have h1 : parseDecimalParts (py_strip "1.6") = some (true, 1, 6, 1) := by decide
    rw [parseDecimal, h1]
    simp [ratOfParts]
    norm_num
  have htr : pyTrunc ((8 : ℚ) / 5) = 1 := by
    rw [pyTrunc, if_pos (by norm_num)]
    norm_num [Int.floor_eq_iff]
  exact (c5_round_age.1 "1.6" _ hp).1 (by rw [htr]; norm_num)

/-- Counterexample for claim C6 as stated: the unrecognized input
`"  unknown_token  "` is not passed through unchanged — the code
returns it stripped. -/
theorem c6_map_gender_cex :
  py_upper (py_strip "  unknown_token  ") ∉ female_terms ∧
  py_upper (py_strip "  unknown_token  ") ∉ male_terms ∧
  map_turkish_gender "  unknown_token  " ≠ "  unknown_token  " ∧
  map_turkish_gender "  unknown_token  " = "unknown_token" := by decide

/-- Claim C6 as amended: the lookup is on the stripped, upper-cased
input; female tokens map to "Female", male tokens to "Male", and an
unrecognized input is returned stripped of surrounding whitespace (so an
already-trimmed token passes through unchanged); the spec’s two anchor
examples hold. -/
theorem c6_map_gender_amended :
  (∀ s, py_upper (py_strip s) ∈ female_terms → map_turkish_gender s = "Female") ∧
  (∀ s, py_upper (py_strip s) ∈ male_terms → map_turkish_gender s = "Male") ∧
  (∀ s, py_upper (py_strip s) ∉ female_terms → py_upper (py_strip s) ∉ male_terms →
     map_turkish_gender s = py_strip s) ∧
  map_turkish_gender "BAYAN" = "Female" ∧
  map_turkish_gender "unknown_token" = "unknown_token" := by
  refine ⟨?_, ?_, ?_, by decide, by decide⟩
  · intro s h
    simp [map_turkish_gender, h]
  · intro s h
    have hnf : py_upper (py_strip s) ∉ female_terms := by
      intro hf
      simp [male_terms] at h
      simp [female_terms] at hf
      rcases hf with h1 | h1 | h1 | h1 | h1 <;>
        rcases h with h2 | h2 | h2 | h2 | h2 <;>
        rw [h1] at h2 <;> exact absurd h2 (by decide)
    simp [map_turkish_gender, h, hnf]
  · intro s h1 h2
    simp [map_turkish_gender, h1, h2]

/-- Witness for C6 at a concrete input: an unrecognized token is
returned stripped. -/
theorem c6_witness : map_turkish_gender "zz" = py_strip "zz" :=
  c6_map_gender_amended.2.2.1 "zz" (by decide) (by decide)

/-- Claim C7: the missing list is the raw request list filtered to the
ids without a found folder — an order-preserving sublist that keeps
every duplicate of an unfound id and drops every occurrence of a found
one; the found triples depend only on which ids are requested, not on
their multiplicity (a duplicated id with one matching folder yields one
triple); and the balance equation `found + missing = dedup(requested)`
fails in general. -/
theorem c7_missing_list :
  (∀ root entries l, List.Sublist (missing_of l (get_subject_folders root entries l)) l) ∧
  (∀ root entries l sid,
    List.count sid (missing_of l (get_subject_folders root entries l)) =
      if sid ∈ found_subject_ids (get_subject_folders root entries l) then 0
      else List.count sid l) ∧
  (∀ root entries l1 l2, (∀ x, x ∈ l1 ↔ x ∈ l2) →
    get_subject_folders root entries l1 = get_subject_folders root entries l2) ∧
  (get_subject_folders "r" (some [("001_A", true)]) ["001", "001"]).length = 1 ∧
  ¬(∀ root entries l,
      (get_subject_folders root entries l).length +
        (missing_of l (get_subject_folders root entries l)).length = l.dedup.length) := by
  refine ⟨?_, ?_, ?_, by decide, ?_⟩
  · intro root entries l
    exact List.filter_sublist l
  · intro root entries l sid
    by_cases hm : sid ∈ found_subject_ids (get_subject_folders root entries l)
    · rw [if_pos hm]
      apply List.count_eq_zero_of_not_mem
      intro hmem
      have := (List.mem_filter.mp hmem).2
      simp at this
      exact this hm
    · rw [if_neg hm]
      apply List.count_filter
      simp [hm]
  · intro root entries l1 l2 hm
    cases entries with
    | none => rfl
    | some es =>
      simp only [get_subject_folders]
      congr 1
      funext e
      by_cases hd : e.2 <;> simp [hd, hm]
  · intro h
    exact absurd (h "r" (some []) ["001", "001"]) (by decide)

/-- Witness for C7 at a concrete input: duplicating a requested id does
not change the found triples. -/
theorem c7_witness :
    get_subject_folders "r" (some [("001_A", true)]) ["001", "001"] =
      get_subject_folders "r" (some [("001_A", true)]) ["001"] :=
  c7_missing_list.2.2.1 "r" (some [("001_A", true)]) ["001", "001"] ["001"]
    (by intro x; simp)

/-- Counterexample for claim C8 as stated: on the page texts
`["a", " ", "b"]` the code drops the blank middle page before joining,
while the spec’s join-all-pages formula keeps it. -/
theorem c8_pdf_join_cex :
    extract_from_pdf ["a", " ", "b"] ≠ extract_from_pdf_spec ["a", " ", "b"] ∧
    extract_from_pdf ["a", " ", "b"] = some "a\nb" ∧
    extract_from_pdf_spec ["a", " ", "b"] = some "a\n \nb" := by decide

/-- Claim C8 as amended: PDF extraction returns the newline-joined
concatenation of the non-blank page texts (in document order), trimmed,
and returns absent exactly when every page’s text is blank. -/
theorem c8_pdf_join_amended :
  (∀ pages, extract_from_pdf pages = none ↔ ∀ t ∈ pages, py_strip t = "") ∧
  (∀ pages t, extract_from_pdf pages = some t →
     t = py_strip (py_join "\n" (pages.filter (fun p => py_strip p ≠ "")))) := by
  constructor
  · intro pages
    have hne : ∀ x ∈ pages.filter (fun p => py_strip p ≠ ""), x ≠ "" := by
      intro x hx hxe
      have h2 := (List.mem_filter.mp hx).2
      rw [hxe] at h2
      have h3 : ¬py_strip "" = "" := by simpa using h2
      exact h3 rfl
    constructor
    · intro h
      by_cases hj : py_join "\n" (pages.filter (fun p => py_strip p ≠ "")) = ""
      · have hfil := (py_join_eq_empty _ hne).mp hj
        intro t ht
        by_contra hts
        have : t ∈ pages.filter (fun p => py_strip p ≠ "") :=
          List.mem_filter.mpr ⟨ht, by simpa using hts⟩
        rw [hfil] at this
        simp at this
      · unfold extract_from_pdf at h
        rw [if_pos hj] at h
        simp at h
    · intro h
      have hfil : pages.filter (fun p => py_strip p ≠ "") = [] := by
        rw [List.filter_eq_nil_iff]
        intro a ha
        simp [h a ha]
      unfold extract_from_pdf
      rw [hfil]
      rfl
  · intro pages t h
    unfold extract_from_pdf at h
    by_cases hj : py_join "\n" (pages.filter (fun p => py_strip p ≠ "")) = ""
    · rw [if_neg (by simpa using hj)] at h
      cases h
    · rw [if_pos (by simpa using hj)] at h
      exact (Option.some_injective _ h).symm

/-- Witness for C8 at a concrete input: one non-blank page and one
blank page. -/
theorem c8_witness :
    "x" = py_strip (py_join "\n" (["x", "  "].filter (fun p => py_strip p ≠ ""))) :=
  c8_pdf_join_amended.2 ["x", "  "] "x" (by decide)

/-- Claim C9: pattern extraction yields `None` on an uncompilable
pattern (caught `re.error`), on no match, and on a pattern with no
capture group, and yields the stripped first capture group of the first
match when that group matched text. -/
theorem c9_extract_with_pattern :
  extract_with_pattern SearchOutcome.compileError = Except.ok none ∧
  extract_with_pattern SearchOutcome.noMatch = Except.ok none ∧
  extract_with_pattern (SearchOutcome.matched []) = Except.ok none ∧
  (∀ g gs, extract_with_pattern (SearchOutcome.matched (some g :: gs)) =
    Except.ok (some (py_strip g))) :=
  ⟨rfl, rfl, rfl, fun _ _ => rfl⟩

/-- Claim C10: `transform_value` with a transform name outside the
recognized set returns the value completely unchanged — no trimming, no
absence, no error. -/
theorem c10_transform_value :
  ∀ (v t : String), t ≠ "age_round" → t ≠ "gender_turkish" → t ≠ "none" → t ≠ "" →
    transform_value v t = PyVal.vStr v := by
  intro v t h1 h2 h3 h4
  simp [transform_value, h1, h2, h3, h4]

/-- Witness for C10 at a concrete input: an unrecognized transform name
leaves an untrimmed value untouched. -/
theorem c10_witness : transform_value "  a  " "bogus" = PyVal.vStr "  a  " :=
  c10_transform_value "  a  " "bogus" (by decide) (by decide) (by decide) (by decide)

end CDE
